import Mathlib

/-!
Verification of the picfit HTTP handler layer (src/server/http_handlers.go).

The Go handlers are embedded shallowly: the gin context becomes an explicit
`Ctx` record, the processor facade and the aes256cbc codec become an `Env`
record of abstract functions, and each handler becomes a Lean function that
returns the response actions it wrote, the collaborator calls it made (in
order), and the error it returned.  Go panics (failed dynamic type assertions,
out-of-range string slicing) are modelled with the `Outcome` wrapper.
-/

namespace Picfit

/-- Byte strings are modelled as lists of naturals. -/
abbrev Bytes := List Nat

/-- The Go `crypto/aes` constant `aes.BlockSize` (16 bytes). -/
def aesBlockSize : Nat := 16

/-- Modelled from the spec: the length of `Processor.SecurePathKey` is fixed at
process start and is not visible in src/server/http_handlers.go.  Per spec §3,
KeyMaterial consists of two contiguous segments, a cipher-key segment and an
IV segment, each exactly one cipher block long, hence 2 * aesBlockSize = 32
bytes in total. -/
def specKeyMaterialLength : Nat := 2 * aesBlockSize

/-- Failure kinds of `aes256cbc.Decode` (spec §4.1). -/
inductive DecodeError where
  | malformedInput
  | paddingInvalid
  | keyMismatch
deriving DecidableEq, Repr

/-- Errors returned by handlers: the sentinel failures of the `failure`
package, decode failures propagated from `aes256cbc.Decode`, and opaque
facade-reported domain errors. -/
inductive GoError where
  | unprocessable
  | fileNotExists
  | decodeFailure (k : DecodeError)
  | domain (n : Nat)
deriving DecidableEq, Repr

/-- `image.ImageFile`: the `FileResult` produced by the facade.  Fields stand
for the Go fields/methods read by the handlers; Go zero values are the
defaults. -/
structure ImageFile where
  filepath : String := ""
  headers : List (String × String) := []
  contentType : String := ""
  content : Bytes := []
  key : String := ""
  filename : String := ""
  path : String := ""
  url : String := ""
  storage : Option Unit := none
deriving DecidableEq, Repr

/-- Result of `Processor.GetSizes`. -/
structure ImageSizes where
  width : Nat
  height : Nat
  bytes : Nat
deriving DecidableEq, Repr

/-- A dynamically typed value stored in the gin context key/value bag
(`interface\x7b\x7d` in Go): a string, a `map[string]interface\x7b\x7d`
(entries listed with their values, a string value marked as such), or any
other dynamic type. -/
inductive GoVal where
  | str (s : String)
  | strMap (m : List (String × GoVal))
  | other

/-- The request-scoped part of a `gin.Context`: route parameters (`c.Param`),
the per-request key/value store (`c.Get` / `c.MustGet`), and URL query
parameters (`c.Query`). -/
structure Ctx where
  routeParams : List (String × String)
  keys : List (String × GoVal)
  queryParams : List (String × String)

/-- `c.Param(name)`: gin returns the empty string for an absent parameter. -/
def Ctx.param (c : Ctx) (name : String) : String :=
  (List.lookup name c.routeParams).getD ""

/-- `c.Get(name)`: `none` models `exists = false`. -/
def Ctx.get (c : Ctx) (name : String) : Option GoVal :=
  List.lookup name c.keys

/-- `c.Query(name)`: gin returns the empty string for an absent query key. -/
def Ctx.query (c : Ctx) (name : String) : String :=
  (List.lookup name c.queryParams).getD ""

/-- A value appearing in a JSON response body. -/
inductive JsonVal where
  | s (v : String)
  | n (v : Nat)
deriving DecidableEq, Repr

/-- One write to the transport response, in the order the handler performed
it: `c.Header`, `c.Data`, `c.JSON`, `c.String`, `c.Redirect`,
`c.AbortWithStatus`. -/
inductive RespAction where
  | header (k v : String)
  | data (status : Nat) (contentType : String) (content : Bytes)
  | json (status : Nat) (fields : List (String × JsonVal))
  | strBody (status : Nat) (body : String)
  | redirectTo (status : Nat) (location : String)
  | abortWithStatus (status : Nat)
deriving DecidableEq, Repr

/-- One call to a collaborator: the facade (`Processor` methods) or the
secure-path codec (`aes256cbc.Decode`). -/
inductive Call where
  | processContext (async load : Bool)
  | getSizes (file : ImageFile)
  | deleteByPath (path : String)
  | deleteByKey (key : String)
  | getStorageByFileExist (path : String)
  | decode (token : String) (key iv : Bytes)
deriving DecidableEq, Repr

/-- Whether a call is a Processor facade operation (the codec call is not). -/
def Call.isFacade : Call → Bool
  | .decode _ _ _ => false
  | _ => true

/-- What one handler invocation did: response writes, collaborator calls, and
the error value the handler returned (`none` = returned nil). -/
structure HRes where
  resp : List RespAction
  calls : List Call
  err : Option GoError
deriving DecidableEq, Repr

/-- A Go computation that may panic. -/
inductive Outcome (α : Type) where
  | ok (r : α)
  | panicked
deriving DecidableEq, Repr

/-- The external collaborators of the handlers: the `Processor` facade
(`ProcessContext`, `GetSizes`, `Delete`, `DeleteChild`,
`GetStorageByFileExist`, `SecurePathKey`, `SetSecuredOptions`) and the
`aes256cbc.Decode` codec function, all abstract. -/
structure Env where
  processContext : Ctx → Bool → Bool → Except GoError ImageFile
  getSizes : ImageFile → Except GoError ImageSizes
  delete : String → Option GoError
  deleteChild : String → Option GoError
  getStorageByFileExist : String → Option Unit
  securePathKey : Bytes
  decode : String → Bytes → Bytes → Except DecodeError String
  setSecuredOptions : Ctx → String → Ctx

/-- Go string slicing `s[1:]`: drop the first byte.  For strings whose first
character is ASCII (the leading separator is), this is dropping the first
character. -/
def goDropFirst (s : String) : String := String.mk s.data.tail

/-- handlers.display (http_handlers.go:58-75): process with async=true,
load=true; on success copy every facade header, force
`Cache-Control: must-revalidate`, and write the bytes with their content
type. -/
def display (env : Env) (c : Ctx) : HRes :=
  match env.processContext c true true with
  | .error e => { resp := [], calls := [Call.processContext true true], err := some e }
  | .ok file =>
      { resp := (file.headers.map fun kv => RespAction.header kv.1 kv.2)
          ++ [RespAction.header "Cache-Control" "must-revalidate",
              RespAction.data 200 file.contentType file.content],
        calls := [Call.processContext true true],
        err := none }

/-- handlers.get (http_handlers.go:137-161): process with async=false,
load=false, fetch sizes, respond with the metadata JSON. -/
def get (env : Env) (c : Ctx) : HRes :=
  match env.processContext c false false with
  | .error e => { resp := [], calls := [Call.processContext false false], err := some e }
  | .ok file =>
      match env.getSizes file with
      | .error e =>
          { resp := [], calls := [Call.processContext false false, Call.getSizes file],
            err := some e }
      | .ok sizes =>
          { resp := [RespAction.json 200
              [("filename", JsonVal.s file.filename), ("path", JsonVal.s file.path),
               ("url", JsonVal.s file.url), ("key", JsonVal.s file.key),
               ("width", JsonVal.n sizes.width), ("height", JsonVal.n sizes.height),
               ("bytes", JsonVal.n sizes.bytes)]],
            calls := [Call.processContext false false, Call.getSizes file],
            err := none }

/-- handlers.redirect (http_handlers.go:174-185): process with async=false,
load=false; on success issue a permanent redirect to the file URL. -/
def redirect (env : Env) (c : Ctx) : HRes :=
  match env.processContext c false false with
  | .error e => { resp := [], calls := [Call.processContext false false], err := some e }
  | .ok file =>
      { resp := [RespAction.redirectTo 301 file.url],
        calls := [Call.processContext false false],
        err := none }

/-- handlers.securePath (http_handlers.go:257-277).
`c.MustGet("parameters")` panics when the key is absent; the
`.(map[string]interface\x7b\x7d)` and `.(string)` assertions panic on any
other dynamic type (including the nil of an absent map entry); the slices
`SecurePathKey[:aes.BlockSize]` / `SecurePathKey[aes.BlockSize:]` panic when
the key is shorter than one block.  On decode failure the handler aborts with
404 and returns the decode error; on success it stores the secured options in
the context and returns nil. -/
def securePath (env : Env) (c : Ctx) : Outcome (HRes × Ctx) :=
  match c.get "parameters" with
  | none => .panicked
  | some (GoVal.strMap parameters) =>
      match List.lookup "path" parameters with
      | some (GoVal.str encodedPath) =>
          if aesBlockSize ≤ env.securePathKey.length then
            let key := List.take aesBlockSize env.securePathKey
            let iv := List.drop aesBlockSize env.securePathKey
            match env.decode encodedPath key iv with
            | .error e =>
                .ok ({ resp := [RespAction.abortWithStatus 404],
                       calls := [Call.decode encodedPath key iv],
                       err := some (GoError.decodeFailure e) }, c)
            | .ok path =>
                .ok ({ resp := [], calls := [Call.decode encodedPath key iv], err := none },
                     env.setSecuredOptions c path)
          else .panicked
      | _ => .panicked
  | some _ => .panicked

/-- Composition of securePath with an underlying handler, as in
handlers.secureDisplay / secureGet / secureRedirect: when securePath returns
an error the underlying handler is not invoked. -/
def secureWith (inner : Env → Ctx → HRes) (env : Env) (c : Ctx) : Outcome HRes :=
  match securePath env c with
  | .panicked => .panicked
  | .ok (r, c2) =>
      match r.err with
      | some _ => .ok r
      | none =>
          let r2 := inner env c2
          .ok { resp := r.resp ++ r2.resp, calls := r.calls ++ r2.calls, err := r2.err }

/-- handlers.secureDisplay (http_handlers.go:77-85). -/
def secureDisplay (env : Env) (c : Ctx) : Outcome HRes :=
  secureWith display env c

/-- handlers.secureGet (http_handlers.go:163-171). -/
def secureGet (env : Env) (c : Ctx) : Outcome HRes :=
  secureWith get env c

/-- handlers.secureRedirect (http_handlers.go:187-195). -/
def secureRedirect (env : Env) (c : Ctx) : Outcome HRes :=
  secureWith redirect env c

/-- handlers.delete (http_handlers.go:110-134).  Source order: if the path
parameter is empty and no "key" entry exists, return ErrUnprocessable; then
if no "key" entry exists call `Delete(path[1:])`, otherwise call
`DeleteChild(key.(string))` (panic when the stored key is not a string). -/
def delete (env : Env) (c : Ctx) : Outcome HRes :=
  let path := c.param "parameters"
  match c.get "key" with
  | none =>
      if path = "" then
        .ok { resp := [], calls := [], err := some GoError.unprocessable }
      else
        match env.delete (goDropFirst path) with
        | some e =>
            .ok { resp := [], calls := [Call.deleteByPath (goDropFirst path)], err := some e }
        | none =>
            .ok { resp := [RespAction.strBody 200 "Ok"],
                  calls := [Call.deleteByPath (goDropFirst path)], err := none }
  | some (GoVal.str k) =>
      match env.deleteChild k with
      | some e => .ok { resp := [], calls := [Call.deleteByKey k], err := some e }
      | none =>
          .ok { resp := [RespAction.strBody 200 "Ok"],
                calls := [Call.deleteByKey k], err := none }
  | some _ => .panicked

/-- handlers.info (http_handlers.go:204-238). -/
def info (env : Env) (c : Ctx) : HRes :=
  let path := c.query "path"
  if path = "" then
    { resp := [RespAction.strBody 400 "Request should contains path string"],
      calls := [], err := none }
  else
    match env.getStorageByFileExist path with
    | none =>
        { resp := [], calls := [Call.getStorageByFileExist path],
          err := some GoError.fileNotExists }
    | some s =>
        let img : ImageFile := { filepath := path, storage := some s }
        match env.getSizes img with
        | .error e =>
            { resp := [], calls := [Call.getStorageByFileExist path, Call.getSizes img],
              err := some e }
        | .ok sizes =>
            { resp := [RespAction.json 200
                [("filename", JsonVal.s img.filename), ("path", JsonVal.s img.path),
                 ("url", JsonVal.s img.url),
                 ("width", JsonVal.n sizes.width), ("height", JsonVal.n sizes.height),
                 ("bytes", JsonVal.n sizes.bytes)]],
              calls := [Call.getStorageByFileExist path, Call.getSizes img],
              err := none }

/-- handlers.exist (http_handlers.go:240-255). -/
def exist (env : Env) (c : Ctx) : HRes :=
  let path := c.query "path"
  if path = "" then
    { resp := [RespAction.strBody 400 "Request should contains path string"],
      calls := [], err := none }
  else
    match env.getStorageByFileExist path with
    | none =>
        { resp := [], calls := [Call.getStorageByFileExist path],
          err := some GoError.fileNotExists }
    | some _ =>
        { resp := [], calls := [Call.getStorageByFileExist path], err := none }

/-- The header value finally visible on the response for key `k`: each
`c.Header(k, v)` replaces the previous value (gin calls
`Writer.Header().Set`); the empty value deletes the header. -/
def finalHeader (resp : List RespAction) (k : String) : Option String :=
  resp.foldl
    (fun acc a =>
      match a with
      | RespAction.header k2 v => if k2 = k then (if v = "" then none else some v) else acc
      | _ => acc)
    none

/-- The ProcessingOptions (async, load) of every facade process call recorded
in a handler result, in order. -/
def processOptions (r : HRes) : List (Bool × Bool) :=
  r.calls.filterMap fun call =>
    match call with
    | Call.processContext a l => some (a, l)
    | _ => none

/-! ### Concrete fixtures used by witnesses and counterexamples -/

/-- A concrete facade file result with a facade-declared Cache-Control
header. -/
def stubFile : ImageFile :=
  { filepath := "foo/bar.png",
    headers := [("Cache-Control", "max-age=3600"), ("ETag", "abc")],
    contentType := "image/png",
    content := [1, 2, 3],
    key := "k0",
    filename := "bar.png",
    path := "foo/bar.png",
    url := "http://img/foo/bar.png",
    storage := some () }

/-- A concrete environment: every facade operation succeeds, the codec always
reports an invalid-padding decode failure, the key is 32 bytes. -/
def stubEnv : Env :=
  { processContext := fun _ _ _ => Except.ok stubFile,
    getSizes := fun _ => Except.ok ⟨10, 20, 30⟩,
    delete := fun _ => none,
    deleteChild := fun _ => none,
    getStorageByFileExist := fun _ => some (),
    securePathKey := List.range 32,
    decode := fun _ _ _ => Except.error DecodeError.paddingInvalid,
    setSecuredOptions := fun c _ => c }

/-- A secured-route context: the parameters map with a string "path" token. -/
def ctxSecure : Ctx :=
  { routeParams := [],
    keys := [("parameters", GoVal.strMap [("path", GoVal.str "dG9rZW4K")])],
    queryParams := [] }

/-- A delete request with a non-empty path parameter and no derived key. -/
def ctxDeletePath : Ctx :=
  { routeParams := [("parameters", "/foo/bar.png")], keys := [], queryParams := [] }

/-- A delete request with an empty path parameter and no derived key. -/
def ctxEmpty : Ctx :=
  { routeParams := [], keys := [], queryParams := [] }

/-- A delete request carrying both a non-empty path parameter and a derived
key attached by middleware. -/
def ctxDeleteBoth : Ctx :=
  { routeParams := [("parameters", "/foo/bar.png")],
    keys := [("key", GoVal.str "childkey")],
    queryParams := [] }

/-! ### Theorems -/

/-- C4: the ProcessingOptions are a fixed function of intent alone — for every
environment and request context, display performs exactly one facade process
call with async=true, load=true, and get and redirect each perform exactly one
facade process call with async=false, load=false. -/
theorem processing_options_fixed_by_intent (env : Env) (c : Ctx) :
    processOptions (display env c) = [(true, true)] ∧
    processOptions (get env c) = [(false, false)] ∧
    processOptions (redirect env c) = [(false, false)] := by
  refine ⟨?_, ?_, ?_⟩
  · unfold display
    cases env.processContext c true true <;> simp [processOptions]
  · unfold get
    cases h : env.processContext c false false with
    | error e => simp [processOptions]
    | ok file => cases h2 : env.getSizes file <;> simp [processOptions, h2]
  · unfold redirect
    cases env.processContext c false false <;> simp [processOptions]

/-- C6: a delete request with an empty path parameter and no derived key
returns the Unprocessable validation error and performs no facade call and no
response write. -/
theorem delete_empty_no_key_unprocessable (env : Env) (c : Ctx)
    (hpath : c.param "parameters" = "") (hkey : c.get "key" = none) :
    delete env c =
      Outcome.ok { resp := [], calls := [], err := some GoError.unprocessable } := by
  unfold delete
  rw [hkey, hpath]
  simp

/-- C6 witness: the empty delete request hits the Unprocessable branch. -/
theorem delete_empty_no_key_unprocessable_witness :
    delete stubEnv ctxEmpty =
      Outcome.ok { resp := [], calls := [], err := some GoError.unprocessable } :=
  delete_empty_no_key_unprocessable stubEnv ctxEmpty rfl rfl

/-- C7: an info or exist request with an empty path query parameter responds
with status 400 and performs no facade call. -/
theorem info_exist_empty_path_400 (env : Env) (c : Ctx)
    (hq : c.query "path" = "") :
    info env c =
      { resp := [RespAction.strBody 400 "Request should contains path string"],
        calls := [], err := none } ∧
    exist env c =
      { resp := [RespAction.strBody 400 "Request should contains path string"],
        calls := [], err := none } := by
  constructor
  · unfold info
    rw [hq]
    simp
  · unfold exist
    rw [hq]
    simp

/-- C7 witness: a request with no path query gets the 400 response from both
info and exist. -/
theorem info_exist_empty_path_400_witness :
    info stubEnv ctxEmpty =
      { resp := [RespAction.strBody 400 "Request should contains path string"],
        calls := [], err := none } ∧
    exist stubEnv ctxEmpty =
      { resp := [RespAction.strBody 400 "Request should contains path string"],
        calls := [], err := none } :=
  info_exist_empty_path_400 stubEnv ctxEmpty rfl

/-- C5: a delete request whose path parameter is non-empty (it begins with the
route separator, as gin wildcard parameters do) and which carries no derived
key invokes the facade delete-by-path operation with the path stripped of its
leading separator, and makes no other collaborator call. -/
theorem delete_strips_leading_separator (env : Env) (c : Ctx) (cs : List Char)
    (hpath : c.param "parameters" = String.mk ('/' :: cs))
    (hkey : c.get "key" = none) :
    ∃ r, delete env c = Outcome.ok r ∧ r.calls = [Call.deleteByPath (String.mk cs)] := by
  have hne : String.mk ('/' :: cs) ≠ "" := by
    intro h
    have h2 := congrArg String.data h
    simp at h2
  have hdrop : goDropFirst (String.mk ('/' :: cs)) = String.mk cs := rfl
  unfold delete
  rw [hkey, hpath]
  simp only [hne, if_false, ite_false, hdrop]
  cases h3 : env.delete (String.mk cs) <;> simp only [h3] <;> exact ⟨_, rfl, rfl⟩

/-- C5 witness: deleting `/foo/bar.png` calls delete-by-path with
`foo/bar.png`. -/
theorem delete_strips_leading_separator_witness :
    ∃ r, delete stubEnv ctxDeletePath = Outcome.ok r ∧
      r.calls = [Call.deleteByPath (String.mk
        ['f', 'o', 'o', '/', 'b', 'a', 'r', '.', 'p', 'n', 'g'])] :=
  delete_strips_leading_separator stubEnv ctxDeletePath
    ['f', 'o', 'o', '/', 'b', 'a', 'r', '.', 'p', 'n', 'g'] rfl rfl

/-- C3 counterexample: a delete request carrying both a non-empty path
parameter (`/foo/bar.png`) and a derived key (`childkey`) deletes by key, not
by path — the only facade call is delete-by-key, refuting the claim that
deletion is by path whenever both are present. -/
theorem delete_both_present_deletes_by_key :
    ctxDeleteBoth.param "parameters" = "/foo/bar.png" ∧
    ctxDeleteBoth.get "key" = some (GoVal.str "childkey") ∧
    delete stubEnv ctxDeleteBoth =
      Outcome.ok { resp := [RespAction.strBody 200 "Ok"],
                   calls := [Call.deleteByKey "childkey"], err := none } :=
  ⟨rfl, rfl, rfl⟩

/-- C3 amended: in the delete handler the derived key takes precedence — if a
prior middleware step attached a (string) derived key, the file is deleted by
key, even when a non-empty path parameter is also present; only when no
derived key is attached is a non-empty path deleted by path; with neither,
the handler fails with Unprocessable before reaching the facade. -/
theorem delete_dispatch_precedence (env : Env) (c : Ctx) :
    (∀ k, c.get "key" = some (GoVal.str k) →
      ∃ r, delete env c = Outcome.ok r ∧ r.calls = [Call.deleteByKey k]) ∧
    (c.get "key" = none → c.param "parameters" ≠ "" →
      ∃ r, delete env c = Outcome.ok r ∧
        r.calls = [Call.deleteByPath (goDropFirst (c.param "parameters"))]) ∧
    (c.get "key" = none → c.param "parameters" = "" →
      delete env c =
        Outcome.ok { resp := [], calls := [], err := some GoError.unprocessable }) := by
  refine ⟨?_, ?_, ?_⟩
  · intro k hk
    unfold delete
    rw [hk]
    cases h2 : env.deleteChild k <;> simp only [h2] <;> exact ⟨_, rfl, rfl⟩
  · intro hk hp
    unfold delete
    rw [hk]
    simp only [hp, if_false, ite_false]
    cases h2 : env.delete (goDropFirst (c.param "parameters")) <;> simp only [h2] <;>
      exact ⟨_, rfl, rfl⟩
  · intro hk hp
    unfold delete
    rw [hk, hp]
    simp

/-- C3 amended witness: with both path and key present deletion is by key;
with only a path it is by path. -/
theorem delete_dispatch_precedence_witness :
    (∃ r, delete stubEnv ctxDeleteBoth = Outcome.ok r ∧
      r.calls = [Call.deleteByKey "childkey"]) ∧
    (∃ r, delete stubEnv ctxDeletePath = Outcome.ok r ∧
      r.calls = [Call.deleteByPath (goDropFirst (ctxDeletePath.param "parameters"))]) :=
  ⟨(delete_dispatch_precedence stubEnv ctxDeleteBoth).1 "childkey" rfl,
   (delete_dispatch_precedence stubEnv ctxDeletePath).2.1 rfl (by decide)⟩

/-- C8: on a successful display request the response consists of every
facade-declared header copied verbatim (in declaration order), followed by
the forced `Cache-Control: must-revalidate` header, followed by the body —
the file content served with the file's content type and status 200 — and the
handler returns nil. -/
theorem display_success_response (env : Env) (c : Ctx) (file : ImageFile)
    (h : env.processContext c true true = Except.ok file) :
    display env c =
      { resp := (file.headers.map fun kv => RespAction.header kv.1 kv.2)
          ++ [RespAction.header "Cache-Control" "must-revalidate",
              RespAction.data 200 file.contentType file.content],
        calls := [Call.processContext true true], err := none } ∧
    (∀ k v, (k, v) ∈ file.headers → RespAction.header k v ∈ (display env c).resp) ∧
    RespAction.header "Cache-Control" "must-revalidate" ∈ (display env c).resp ∧
    RespAction.data 200 file.contentType file.content ∈ (display env c).resp := by
  have hd : display env c =
      { resp := (file.headers.map fun kv => RespAction.header kv.1 kv.2)
          ++ [RespAction.header "Cache-Control" "must-revalidate",
              RespAction.data 200 file.contentType file.content],
        calls := [Call.processContext true true], err := none } := by
    unfold display
    rw [h]
  refine ⟨hd, ?_, ?_, ?_⟩
  · intro k v hkv
    rw [hd]
    simp only [List.mem_append, List.mem_map]
    exact Or.inl ⟨(k, v), hkv, rfl⟩
  · rw [hd]
    simp
  · rw [hd]
    simp

/-- C8 witness: the concrete facade file is served with its two declared
headers, the forced revalidation header, and its bytes. -/
theorem display_success_response_witness :
    display stubEnv ctxEmpty =
      { resp := [RespAction.header "Cache-Control" "max-age=3600",
                 RespAction.header "ETag" "abc",
                 RespAction.header "Cache-Control" "must-revalidate",
                 RespAction.data 200 "image/png" [1, 2, 3]],
        calls := [Call.processContext true true], err := none } :=
  (display_success_response stubEnv ctxEmpty stubFile rfl).1

/-- C9: the forced Cache-Control write happens after the facade headers are
copied, so even when the facade declares its own Cache-Control value, the
header finally visible on the response is `must-revalidate` and the declared
value is discarded. -/
theorem display_cache_control_override (env : Env) (c : Ctx) (file : ImageFile)
    (v : String)
    (h : env.processContext c true true = Except.ok file)
    (_hv : ("Cache-Control", v) ∈ file.headers) :
    finalHeader (display env c).resp "Cache-Control" = some "must-revalidate" ∧
    (v ≠ "must-revalidate" →
      finalHeader (display env c).resp "Cache-Control" ≠ some v) := by
  have hd : (display env c).resp =
      (file.headers.map fun kv => RespAction.header kv.1 kv.2)
        ++ [RespAction.header "Cache-Control" "must-revalidate",
            RespAction.data 200 file.contentType file.content] := by
    unfold display
    rw [h]
  have h1 : finalHeader (display env c).resp "Cache-Control" =
      some "must-revalidate" := by
    rw [hd]
    unfold finalHeader
    rw [List.foldl_append]
    simp
  refine ⟨h1, fun hne heq => hne ?_⟩
  rw [h1] at heq
  exact (Option.some.inj heq).symm

/-- C9 witness: the stub facade declares `Cache-Control: max-age=3600`, yet
the response's final Cache-Control is `must-revalidate`. -/
theorem display_cache_control_override_witness :
    finalHeader (display stubEnv ctxEmpty).resp "Cache-Control" =
      some "must-revalidate" ∧
    finalHeader (display stubEnv ctxEmpty).resp "Cache-Control" ≠
      some "max-age=3600" := by
  have h := display_cache_control_override stubEnv ctxEmpty stubFile "max-age=3600"
    rfl (by simp [stubFile])
  exact ⟨h.1, h.2 (by decide)⟩

/-- C1: on every secured route (secure display, secure get, secure redirect),
when the codec decode of the token fails for any reason, the result is the
same for all three routes: the response is exactly the uniform 404 abort
(carrying no decode-specific information), no facade operation is invoked,
and the underlying handler never runs (it writes nothing). -/
theorem secure_routes_decode_failure_uniform_404
    (env : Env) (c : Ctx) (parameters : List (String × GoVal))
    (token : String) (e : DecodeError)
    (hkey : aesBlockSize ≤ env.securePathKey.length)
    (hp : c.get "parameters" = some (GoVal.strMap parameters))
    (htok : List.lookup "path" parameters = some (GoVal.str token))
    (hdec : env.decode token (List.take aesBlockSize env.securePathKey)
        (List.drop aesBlockSize env.securePathKey) = Except.error e) :
    ∃ r, secureDisplay env c = Outcome.ok r ∧
      secureGet env c = Outcome.ok r ∧
      secureRedirect env c = Outcome.ok r ∧
      r.resp = [RespAction.abortWithStatus 404] ∧
      r.calls.filter Call.isFacade = [] ∧
      r.err = some (GoError.decodeFailure e) := by
  have hsp : securePath env c =
      Outcome.ok ({ resp := [RespAction.abortWithStatus 404],
                    calls := [Call.decode token (List.take aesBlockSize env.securePathKey)
                      (List.drop aesBlockSize env.securePathKey)],
                    err := some (GoError.decodeFailure e) }, c) := by
    unfold securePath
    simp only [hp, htok, hkey, ite_true, hdec]
  refine ⟨{ resp := [RespAction.abortWithStatus 404],
            calls := [Call.decode token (List.take aesBlockSize env.securePathKey)
              (List.drop aesBlockSize env.securePathKey)],
            err := some (GoError.decodeFailure e) }, ?_, ?_, ?_, rfl, rfl, rfl⟩
  · unfold secureDisplay secureWith
    rw [hsp]
  · unfold secureGet secureWith
    rw [hsp]
  · unfold secureRedirect secureWith
    rw [hsp]

/-- C1 witness: with a decode that rejects the concrete token, all three
secured routes abort with 404 and make no facade call. -/
theorem secure_routes_decode_failure_uniform_404_witness :
    ∃ r, secureDisplay stubEnv ctxSecure = Outcome.ok r ∧
      secureGet stubEnv ctxSecure = Outcome.ok r ∧
      secureRedirect stubEnv ctxSecure = Outcome.ok r ∧
      r.resp = [RespAction.abortWithStatus 404] ∧
      r.calls.filter Call.isFacade = [] ∧
      r.err = some (GoError.decodeFailure DecodeError.paddingInvalid) :=
  secure_routes_decode_failure_uniform_404 stubEnv ctxSecure
    [("path", GoVal.str "dG9rZW4K")] "dG9rZW4K" DecodeError.paddingInvalid
    (by decide) rfl rfl rfl

/-- C2: whenever securePath reaches the codec, the decode call receives the
cipher-key segment (first argument) and the IV segment (second argument)
obtained by slicing the process-wide key at one AES block, exactly as written
in the source; with the spec-fixed KeyMaterial length, each segment is
exactly one AES block long and the two segments are contiguous — their
concatenation is the whole key. -/
theorem securePath_key_slicing (env : Env) (c : Ctx)
    (parameters : List (String × GoVal)) (token : String)
    (hlen : env.securePathKey.length = specKeyMaterialLength)
    (hp : c.get "parameters" = some (GoVal.strMap parameters))
    (htok : List.lookup "path" parameters = some (GoVal.str token)) :
    ∃ res, securePath env c = Outcome.ok res ∧
      res.1.calls = [Call.decode token (List.take aesBlockSize env.securePathKey)
        (List.drop aesBlockSize env.securePathKey)] ∧
      (List.take aesBlockSize env.securePathKey).length = aesBlockSize ∧
      (List.drop aesBlockSize env.securePathKey).length = aesBlockSize ∧
      List.take aesBlockSize env.securePathKey
          ++ List.drop aesBlockSize env.securePathKey = env.securePathKey := by
  have hkey : aesBlockSize ≤ env.securePathKey.length := by
    rw [hlen]
    decide
  have hlen1 : (List.take aesBlockSize env.securePathKey).length = aesBlockSize := by
    rw [List.length_take, hlen]
    decide
  have hlen2 : (List.drop aesBlockSize env.securePathKey).length = aesBlockSize := by
    rw [List.length_drop, hlen]
    decide
  unfold securePath
  simp only [hp, htok, hkey, ite_true]
  cases hdec : env.decode token (List.take aesBlockSize env.securePathKey)
      (List.drop aesBlockSize env.securePathKey) with
  | error e =>
      simp only [hdec]
      exact ⟨_, rfl, rfl, hlen1, hlen2, List.take_append_drop _ _⟩
  | ok p =>
      simp only [hdec]
      exact ⟨_, rfl, rfl, hlen1, hlen2, List.take_append_drop _ _⟩

/-- C2 witness: with the concrete 32-byte key, securePath calls decode on the
16-byte cipher-key segment and the 16-byte IV segment whose concatenation is
the key. -/
theorem securePath_key_slicing_witness :
    ∃ res, securePath stubEnv ctxSecure = Outcome.ok res ∧
      res.1.calls = [Call.decode "dG9rZW4K"
        (List.take aesBlockSize stubEnv.securePathKey)
        (List.drop aesBlockSize stubEnv.securePathKey)] ∧
      (List.take aesBlockSize stubEnv.securePathKey).length = aesBlockSize ∧
      (List.drop aesBlockSize stubEnv.securePathKey).length = aesBlockSize ∧
      List.take aesBlockSize stubEnv.securePathKey
          ++ List.drop aesBlockSize stubEnv.securePathKey = stubEnv.securePathKey :=
  securePath_key_slicing stubEnv ctxSecure
    [("path", GoVal.str "dG9rZW4K")] "dG9rZW4K" (by decide) rfl rfl

/-- C10: securePath performs unguarded dynamic type assertions — when the
context has no "parameters" entry, or that entry is not a string-keyed map,
or the map's "path" entry is absent or not a string, securePath and all three
secured-route handlers panic instead of returning a typed error outcome. -/
theorem securePath_ill_typed_context_panics (env : Env) (c : Ctx)
    (h : c.get "parameters" = none
      ∨ (∃ v, c.get "parameters" = some v ∧ ∀ m, v ≠ GoVal.strMap m)
      ∨ (∃ m, c.get "parameters" = some (GoVal.strMap m) ∧
          ∀ s, List.lookup "path" m ≠ some (GoVal.str s))) :
    securePath env c = Outcome.panicked ∧
    secureDisplay env c = Outcome.panicked ∧
    secureGet env c = Outcome.panicked ∧
    secureRedirect env c = Outcome.panicked := by
  have hsp : securePath env c = Outcome.panicked := by
    rcases h with h1 | ⟨v, h2, hv⟩ | ⟨m, h3, hm⟩
    · unfold securePath
      rw [h1]
    · unfold securePath
      rw [h2]
      cases v with
      | str s => rfl
      | strMap m => exact absurd rfl (hv m)
      | other => rfl
    · unfold securePath
      rw [h3]
      cases hl : List.lookup "path" m with
      | none => simp only [hl]
      | some v =>
          cases v with
          | str s => exact absurd hl (hm s)
          | strMap mm => simp only [hl]
          | other => simp only [hl]
  refine ⟨hsp, ?_, ?_, ?_⟩
  · unfold secureDisplay secureWith
    rw [hsp]
  · unfold secureGet secureWith
    rw [hsp]
  · unfold secureRedirect secureWith
    rw [hsp]

/-- C10 witness: a request whose context has no "parameters" entry makes the
secured routes panic. -/
theorem securePath_ill_typed_context_panics_witness :
    securePath stubEnv ctxEmpty = Outcome.panicked ∧
    secureDisplay stubEnv ctxEmpty = Outcome.panicked ∧
    secureGet stubEnv ctxEmpty = Outcome.panicked ∧
    secureRedirect stubEnv ctxEmpty = Outcome.panicked :=
  securePath_ill_typed_context_panics stubEnv ctxEmpty (Or.inl rfl)

end Picfit
